import Mathlib

/-!
Verification development for the notebook `ignis/gate_errors.ipynb`.

The notebook is a linear sequence of markdown cells presenting the theory of
gate-error amplification sequences for single-qubit gates, plus one code cell
of imports and one empty code cell.  We embed

* the single-qubit operators the derivations are about (Pauli matrices,
  the miscalibrated rotation `U = e^{-i(π/2+dθ)σ_X/2}`, the phase-error gates
  `X90p`, `Y90p`), and

* the notebook itself as data (its cells and raw lines) together with a small
  semantics for its Python code cells,

and prove the identities and structural facts stated about them.
-/

open Real Matrix

set_option maxRecDepth 100000

namespace GateErrors

/-- The Pauli matrix σ_X. -/
def σX : Matrix (Fin 2) (Fin 2) ℂ := !![0, 1; 1, 0]

/-- The Pauli matrix σ_Y. -/
def σY : Matrix (Fin 2) (Fin 2) ℂ := !![0, -Complex.I; Complex.I, 0]

/-- The Pauli matrix σ_Z. -/
def σZ : Matrix (Fin 2) (Fin 2) ℂ := !![1, 0; 0, -1]

/-- The ground state `|0⟩` as a vector. -/
def ket0 : Fin 2 → ℂ := ![1, 0]

/-- Closed form of the rotation `e^{-iθσ_X}`: `cos θ · I − i sin θ · σ_X`. -/
noncomputable def rotX (θ : ℝ) : Matrix (Fin 2) (Fin 2) ℂ :=
  !![(cos θ : ℂ), -(Complex.I * (sin θ : ℂ)); -(Complex.I * (sin θ : ℂ)), (cos θ : ℂ)]

/-- Closed form of the rotation `e^{-iθσ_Y}`: `cos θ · I − i sin θ · σ_Y`. -/
noncomputable def rotY (θ : ℝ) : Matrix (Fin 2) (Fin 2) ℂ :=
  !![(cos θ : ℂ), -(sin θ : ℂ); (sin θ : ℂ), (cos θ : ℂ)]

/-- Eigenvector matrix diagonalising σ_X. -/
def PX : Matrix (Fin 2) (Fin 2) ℂ := !![1, 1; 1, -1]

/-- Eigenvector matrix diagonalising σ_Y. -/
def QY : Matrix (Fin 2) (Fin 2) ℂ := !![1, 1; Complex.I, -Complex.I]

/-- The amplitude-miscalibrated gate of the notebook,
`U = e^{-i(π/2+dθ)σ_X/2}`. -/
noncomputable def Uamp (dθ : ℝ) : Matrix (Fin 2) (Fin 2) ℂ :=
  NormedSpace.exp ℂ ((-(Complex.I * (((π / 2 + dθ) / 2 : ℝ) : ℂ))) • σX)

/-- Excited-state population after applying the miscalibrated gate `2n+1`
times to the ground state. -/
noncomputable def P1amp (n : ℕ) (dθ : ℝ) : ℝ :=
  Complex.normSq ((Uamp dθ ^ (2 * n + 1)).mulVec ket0 1)

/-- The small-angle formula of notebook line 105, as a function of `dθ`. -/
noncomputable def P1formula (n : ℕ) : ℝ → ℝ := fun dθ =>
  1 / 2 + ((-1 : ℝ) ^ n / 2) * sin ((2 * n + 1) * dθ)

/-- The Euler-expanded `X90p` exactly as displayed in line 100 of the
notebook, with no factor `i` on the `σ_X` term. -/
noncomputable def X90pDisp (dθ : ℝ) : Matrix (Fin 2) (Fin 2) ℂ :=
  ((cos (π / 4 + dθ / 2) : ℝ) : ℂ) • 1 - ((sin (π / 4 + dθ / 2) : ℝ) : ℂ) • σX

/-- The right-hand side of the displayed power identity of line 101. -/
noncomputable def X90pDispPowClaim (n : ℕ) (dθ : ℝ) : Matrix (Fin 2) (Fin 2) ℂ :=
  ((cos ((n : ℝ) * (π / 2) + n * dθ + π / 4 + dθ / 2) : ℝ) : ℂ) • 1
    - ((sin ((n : ℝ) * (π / 2) + n * dθ + π / 4 + dθ / 2) : ℝ) : ℂ) • σX

/-- The Euler expansion of `X90p` with the factor `i` restored: the genuine
expansion of `e^{-i(π/4+dθ/2)σ_X}`. -/
noncomputable def X90pEuler (dθ : ℝ) : Matrix (Fin 2) (Fin 2) ℂ :=
  ((cos (π / 4 + dθ / 2) : ℝ) : ℂ) • 1
    - (Complex.I * ((sin (π / 4 + dθ / 2) : ℝ) : ℂ)) • σX

/-- The ideal `X90p` of the phase-error section, `e^{-i(π/4)σ_X}` (line 124). -/
noncomputable def X90p : Matrix (Fin 2) (Fin 2) ℂ :=
  NormedSpace.exp ℂ ((-(Complex.I * ((π / 4 : ℝ) : ℂ))) • σX)

/-- The phase-miscalibrated `Y90p` of line 125,
`e^{-i(π/4)[cos(dφ)σ_Y + sin(dφ)σ_X]}`. -/
noncomputable def Y90p (dφ : ℝ) : Matrix (Fin 2) (Fin 2) ℂ :=
  NormedSpace.exp ℂ ((-(Complex.I * ((π / 4 : ℝ) : ℂ))) •
    (((cos dφ : ℝ) : ℂ) • σY + ((sin dφ : ℝ) : ℂ) • σX))

/-- The phase-error amplification sequence `X90p-[{Y90p}²{X90p}²]^n-Y90p`
of line 127 as an operator, leftmost pulse acting first. -/
noncomputable def phaseSeqOp (n : ℕ) : Matrix (Fin 2) (Fin 2) ℂ :=
  Y90p 0 * (X90p ^ 2 * Y90p 0 ^ 2) ^ n * X90p

/-- Excited-state population of the phase-error sequence on the ground
state, at `dφ = 0`. -/
noncomputable def P1phase (n : ℕ) : ℝ :=
  Complex.normSq ((phaseSeqOp n).mulVec ket0 1)

/-- Density operator with Bloch vector `(x, y, z)`:
`ρ = (1/2)(I + xσ_X + yσ_Y + zσ_Z)`. -/
noncomputable def blochRho (x y z : ℝ) : Matrix (Fin 2) (Fin 2) ℂ :=
  ((1 : ℂ) / 2) • (1 + (x : ℂ) • σX + (y : ℂ) • σY + (z : ℂ) • σZ)

/-- Kind of a notebook cell. -/
inductive CellKind
  | markdown
  | code
deriving DecidableEq

/-- A notebook cell: its kind and its source lines, exactly as stored in
the notebook JSON `source` arrays (trailing newlines included). -/
structure Cell where
  kind : CellKind
  source : List String
deriving DecidableEq

/-- The raw lines of the notebook file `ignis/gate_errors.ipynb`. -/
def rawNotebookLines : List String :=
  ["\x7b",
   " \"cells\": [",
   "  \x7b",
   "   \"cell_type\": \"markdown\",",
   "   \"metadata\": \x7b\x7d,",
   "   \"source\": [",
   "    \"<img src=\\\"https://raw.githubusercontent.com/Qiskit/qiskit-tutorials/master/images/qiskit-heading.png\\\" alt=\\\"Note: In order for images to show up in this jupyter notebook you need to select File => Trusted Notebook\\\" width=\\\"500 px\\\" align=\\\"left\\\">\"",
   "   ]",
   "  \x7d,",
   "  \x7b",
   "   \"cell_type\": \"markdown\",",
   "   \"metadata\": \x7b\x7d,",
   "   \"source\": [",
   "    \"## _*Gate Errors*_ \\n\",",
   "    \"\\n\",",
   "    \"\\n\",",
   "    \"***\\n\",",
   "    \"### Contributors\\n\",",
   "    \"David McKay\"",
   "   ]",
   "  \x7d,",
   "  \x7b",
   "   \"cell_type\": \"markdown\",",
   "   \"metadata\": \x7b\x7d,",
   "   \"source\": [",
   "    \"## Introduction\\n\",",
   "    \"\\n\",",
   "    \"The general form of an arbitrary single qubit gate is a rotation $\\\\theta$ around some axis in the Bloch sphere with unit vector $\\\\hat\x7bn\x7d$ such that\\n\",",
   "    \"$$U(\\\\theta,\\\\hat\x7bn\x7d) = e^\x7b-i \\\\theta \\\\hat\x7bn\x7d \\\\cdot \\\\sigma\x7d $$\\n\",",
   "    \"Physically these rotations are performed by applying some oscillating electromagnetic field at the qubit frequency to the location of the qubit. It is not necessary to calibrate all such rotations, only a few rotation angles and axes are enough. At minimum we need a $\\\\pi/2$ rotation ($\\\\theta=\\\\pi/4$) along two orthogonal axis. So then the calibration question becomes how to tell that the gate $X90p$ ($\\\\pi/2$ around $X$) is really $ e^\x7b-i \\\\frac\x7b\\\\pi\x7d\x7b4\x7d \\\\sigma_X\x7d $?\\n\",",
   "    \"\\n\",",
   "    \"Here we will look at different sequences to amplify possible errors in the gate.\\n\",",
   "    \"\\n\",",
   "    \"\\n\",",
   "    \"**Contents**\\n\",",
   "    \"\\n\",",
   "    \"[Amplitude](#sect1)\\n\",",
   "    \"\\n\",",
   "    \"[Phase](#sect2)\\n\",",
   "    \"\\n\",",
   "    \"\\n\",",
   "    \"### References\\n\",",
   "    \"\\n\",",
   "    \"[1]<a id=\\\"ref1\\\"></a> David C. McKay, Christopher J. Wood, Sarah Sheldon, Jerry M. Chow and Jay M. Gambetta. Efficient Z-Gates for Quantum Computing. https://arxiv.org/abs/1612.00858\"",
   "   ]",
   "  \x7d,",
   "  \x7b",
   "   \"cell_type\": \"markdown\",",
   "   \"metadata\": \x7b\x7d,",
   "   \"source\": [",
   "    \"Code imports\\n\",",
   "    \"==============\"",
   "   ]",
   "  \x7d,",
   "  \x7b",
   "   \"cell_type\": \"code\",",
   "   \"execution_count\": 1,",
   "   \"metadata\": \x7b",
   "    \"ExecuteTime\": \x7b",
   "     \"end_time\": \"2018-12-18T15:13:54.475305Z\",",
   "     \"start_time\": \"2018-12-18T15:13:53.026353Z\"",
   "    \x7d",
   "   \x7d,",
   "   \"outputs\": [],",
   "   \"source\": [",
   "    \"# Import general libraries (needed for functions)\\n\",",
   "    \"import numpy as np\\n\",",
   "    \"import time\\n\",",
   "    \"\\n\",",
   "    \"# Import Qiskit classes\\n\",",
   "    \"import qiskit \\n\",",
   "    \"from qiskit import QuantumRegister, QuantumCircuit, ClassicalRegister, Aer\\n\",",
   "    \"from qiskit.providers.aer import noise\\n\",",
   "    \"from qiskit.tools.visualization import plot_histogram\\n\",",
   "    \"\\n\",",
   "    \"# Import measurement calibration functions\\n\",",
   "    \"from qiskit.ignis.mitigation.measurement import (complete_meas_cal,\\n\",",
   "    \"                                                       CompleteMeasFitter, MeasurementFilter)\"",
   "   ]",
   "  \x7d,",
   "  \x7b",
   "   \"cell_type\": \"markdown\",",
   "   \"metadata\": \x7b\x7d,",
   "   \"source\": [",
   "    \"<a id=\x27sect1\x27></a>\"",
   "   ]",
   "  \x7d,",
   "  \x7b",
   "   \"cell_type\": \"markdown\",",
   "   \"metadata\": \x7b\x7d,",
   "   \"source\": [",
   "    \"# Amplitude Error\\n\",",
   "    \"\\n\",",
   "    \"Consider a gate which is a X90p, but with a slight rotation error. \\n\",",
   "    \"$$U = e^\x7b-i (\\\\pi/2+d\\\\theta) \\\\sigma_X/2\x7d  $$\\n\",",
   "    \"One way to measure $d\\\\theta$ would be to apply the gate starting with the qubit in the ground state and look at the $|0\\\\rangle$ and $|1\\\\rangle$ counts. However, the signal could be lost in the noise. To amplify the roration error we continually apply the gate in groups of 2,\\n\",",
   "    \"$$U = X90p-[X90p-X90p]^n$$\\n\",",
   "    \"\\n\",",
   "    \"To predict the outcome we expand using Euler\x27s formula,\\n\",",
   "    \"$$X90p = \\\\text\x7bcos\x7d\\\\left(\\\\frac\x7b\\\\pi\x7d\x7b4\x7d+\\\\frac\x7bd\\\\theta\x7d\x7b2\x7d\\\\right)I - \\\\text\x7bsin\x7d\\\\left(\\\\frac\x7b\\\\pi\x7d\x7b4\x7d+\\\\frac\x7bd\\\\theta\x7d\x7b2\x7d\\\\right) \\\\sigma_X $$\\n\",",
   "    \"$$X90p^\x7b2n+1\x7d = \\\\text\x7bcos\x7d\\\\left(n\\\\frac\x7b\\\\pi\x7d\x7b2\x7d+nd\\\\theta+\\\\frac\x7b\\\\pi\x7d\x7b4\x7d+\\\\frac\x7bd\\\\theta\x7d\x7b2\x7d\\\\right)I - \\\\text\x7bsin\x7d\\\\left(n\\\\frac\x7b\\\\pi\x7d\x7b2\x7d+nd\\\\theta+\\\\frac\x7b\\\\pi\x7d\x7b4\x7d+\\\\frac\x7bd\\\\theta\x7d\x7b2\x7d\\\\right) \\\\sigma_X $$\\n\",",
   "    \"and the population in the excited state is\\n\",",
   "    \"$$ P_\x7b|1\\\\rangle, 2n+1\x7d = \\\\text\x7bsin\x7d^2\\\\left(n\\\\frac\x7b\\\\pi\x7d\x7b2\x7d+nd\\\\theta+\\\\frac\x7b\\\\pi\x7d\x7b4\x7d+\\\\frac\x7bd\\\\theta\x7d\x7b2\x7d\\\\right) $$ \\n\",",
   "    \"$$ P_\x7b|1\\\\rangle, 2n+1\x7d = \\\\frac\x7b1\x7d\x7b2\x7d-\\\\frac\x7b1\x7d\x7b2\x7d\\\\text\x7bcos\x7d\\\\left(n\\\\pi+2nd\\\\theta+\\\\frac\x7b\\\\pi\x7d\x7b2\x7d+d\\\\theta\\\\right) $$ \\n\",",
   "    \"$$ P_\x7b|1\\\\rangle, 2n+1\x7d = \\\\frac\x7b1\x7d\x7b2\x7d+\\\\frac\x7b(-1)^n\x7d\x7b2\x7d\\\\text\x7bsin\x7d\\\\left(2nd\\\\theta+d\\\\theta\\\\right) $$ \\n\",",
   "    \"for small $d\\\\theta$ this amplifies the error by $n$,\\n\",",
   "    \"$$ P_\x7b|1\\\\rangle, 2n+1\x7d \\\\approx \\\\frac\x7b1\x7d\x7b2\x7d+\\\\frac\x7b(-1)^n d\\\\theta\x7d\x7b2\x7d(2n+1) $$ \\n\"",
   "   ]",
   "  \x7d,",
   "  \x7b",
   "   \"cell_type\": \"markdown\",",
   "   \"metadata\": \x7b\x7d,",
   "   \"source\": [",
   "    \"<a id=\x27sect2\x27></a>\"",
   "   ]",
   "  \x7d,",
   "  \x7b",
   "   \"cell_type\": \"markdown\",",
   "   \"metadata\": \x7b\x7d,",
   "   \"source\": [",
   "    \"# Phase Error\\n\",",
   "    \"\\n\",",
   "    \"A phase error means that the angle between the X90p and Y90p is not perfectly $\\\\pi/2$. We assume the amplitude is correct so,\\n\",",
   "    \"$$X90p = e^\x7b-i \\\\frac\x7b\\\\pi\x7d\x7b4\x7d\\\\sigma_X\x7d$$\\n\",",
   "    \"$$Y90p = e^\x7b-i \\\\frac\x7b\\\\pi\x7d\x7b4\x7d\\\\left[\\\\text\x7bcos\x7d(d\\\\phi)\\\\sigma_Y+\\\\text\x7bsin\x7d(d\\\\phi)\\\\sigma_X\\\\right]\x7d$$\\n\",",
   "    \"The angle error can be amplified by the sequence\\n\",",
   "    \"$$X90p-[\\\\\x7bY90p\\\\\x7d^2 \\\\\x7bX90p\\\\\x7d^2]^n - Y90p$$\"",
   "   ]",
   "  \x7d,",
   "  \x7b",
   "   \"cell_type\": \"code\",",
   "   \"execution_count\": null,",
   "   \"metadata\": \x7b\x7d,",
   "   \"outputs\": [],",
   "   \"source\": []",
   "  \x7d",
   " ],",
   " \"metadata\": \x7b",
   "  \"anaconda-cloud\": \x7b\x7d,",
   "  \"celltoolbar\": \"Tags\",",
   "  \"hide_input\": false,",
   "  \"kernelspec\": \x7b",
   "   \"display_name\": \"Python 3\",",
   "   \"language\": \"python\",",
   "   \"name\": \"python3\"",
   "  \x7d,",
   "  \"language_info\": \x7b",
   "   \"codemirror_mode\": \x7b",
   "    \"name\": \"ipython\",",
   "    \"version\": 3",
   "   \x7d,",
   "   \"file_extension\": \".py\",",
   "   \"mimetype\": \"text/x-python\",",
   "   \"name\": \"python\",",
   "   \"nbconvert_exporter\": \"python\",",
   "   \"pygments_lexer\": \"ipython3\",",
   "   \"version\": \"3.6.8\"",
   "  \x7d",
   " \x7d,",
   " \"nbformat\": 4,",
   " \"nbformat_minor\": 2",
   "\x7d"]

/-- The cells of the notebook, in order: their kind and their source
lines exactly as stored in the notebook JSON. -/
def notebookCells : List Cell :=
  [⟨CellKind.markdown,
     ["<img src=\"https://raw.githubusercontent.com/Qiskit/qiskit-tutorials/master/images/qiskit-heading.png\" alt=\"Note: In order for images to show up in this jupyter notebook you need to select File => Trusted Notebook\" width=\"500 px\" align=\"left\">"]⟩,
   ⟨CellKind.markdown,
     ["## _*Gate Errors*_ \n",
      "\n",
      "\n",
      "***\n",
      "### Contributors\n",
      "David McKay"]⟩,
   ⟨CellKind.markdown,
     ["## Introduction\n",
      "\n",
      "The general form of an arbitrary single qubit gate is a rotation $\\theta$ around some axis in the Bloch sphere with unit vector $\\hat\x7bn\x7d$ such that\n",
      "$$U(\\theta,\\hat\x7bn\x7d) = e^\x7b-i \\theta \\hat\x7bn\x7d \\cdot \\sigma\x7d $$\n",
      "Physically these rotations are performed by applying some oscillating electromagnetic field at the qubit frequency to the location of the qubit. It is not necessary to calibrate all such rotations, only a few rotation angles and axes are enough. At minimum we need a $\\pi/2$ rotation ($\\theta=\\pi/4$) along two orthogonal axis. So then the calibration question becomes how to tell that the gate $X90p$ ($\\pi/2$ around $X$) is really $ e^\x7b-i \\frac\x7b\\pi\x7d\x7b4\x7d \\sigma_X\x7d $?\n",
      "\n",
      "Here we will look at different sequences to amplify possible errors in the gate.\n",
      "\n",
      "\n",
      "**Contents**\n",
      "\n",
      "[Amplitude](#sect1)\n",
      "\n",
      "[Phase](#sect2)\n",
      "\n",
      "\n",
      "### References\n",
      "\n",
      "[1]<a id=\"ref1\"></a> David C. McKay, Christopher J. Wood, Sarah Sheldon, Jerry M. Chow and Jay M. Gambetta. Efficient Z-Gates for Quantum Computing. https://arxiv.org/abs/1612.00858"]⟩,
   ⟨CellKind.markdown,
     ["Code imports\n",
      "=============="]⟩,
   ⟨CellKind.code,
     ["# Import general libraries (needed for functions)\n",
      "import numpy as np\n",
      "import time\n",
      "\n",
      "# Import Qiskit classes\n",
      "import qiskit \n",
      "from qiskit import QuantumRegister, QuantumCircuit, ClassicalRegister, Aer\n",
      "from qiskit.providers.aer import noise\n",
      "from qiskit.tools.visualization import plot_histogram\n",
      "\n",
      "# Import measurement calibration functions\n",
      "from qiskit.ignis.mitigation.measurement import (complete_meas_cal,\n",
      "                                                       CompleteMeasFitter, MeasurementFilter)"]⟩,
   ⟨CellKind.markdown,
     ["<a id=\x27sect1\x27></a>"]⟩,
   ⟨CellKind.markdown,
     ["# Amplitude Error\n",
      "\n",
      "Consider a gate which is a X90p, but with a slight rotation error. \n",
      "$$U = e^\x7b-i (\\pi/2+d\\theta) \\sigma_X/2\x7d  $$\n",
      "One way to measure $d\\theta$ would be to apply the gate starting with the qubit in the ground state and look at the $|0\\rangle$ and $|1\\rangle$ counts. However, the signal could be lost in the noise. To amplify the roration error we continually apply the gate in groups of 2,\n",
      "$$U = X90p-[X90p-X90p]^n$$\n",
      "\n",
      "To predict the outcome we expand using Euler\x27s formula,\n",
      "$$X90p = \\text\x7bcos\x7d\\left(\\frac\x7b\\pi\x7d\x7b4\x7d+\\frac\x7bd\\theta\x7d\x7b2\x7d\\right)I - \\text\x7bsin\x7d\\left(\\frac\x7b\\pi\x7d\x7b4\x7d+\\frac\x7bd\\theta\x7d\x7b2\x7d\\right) \\sigma_X $$\n",
      "$$X90p^\x7b2n+1\x7d = \\text\x7bcos\x7d\\left(n\\frac\x7b\\pi\x7d\x7b2\x7d+nd\\theta+\\frac\x7b\\pi\x7d\x7b4\x7d+\\frac\x7bd\\theta\x7d\x7b2\x7d\\right)I - \\text\x7bsin\x7d\\left(n\\frac\x7b\\pi\x7d\x7b2\x7d+nd\\theta+\\frac\x7b\\pi\x7d\x7b4\x7d+\\frac\x7bd\\theta\x7d\x7b2\x7d\\right) \\sigma_X $$\n",
      "and the population in the excited state is\n",
      "$$ P_\x7b|1\\rangle, 2n+1\x7d = \\text\x7bsin\x7d^2\\left(n\\frac\x7b\\pi\x7d\x7b2\x7d+nd\\theta+\\frac\x7b\\pi\x7d\x7b4\x7d+\\frac\x7bd\\theta\x7d\x7b2\x7d\\right) $$ \n",
      "$$ P_\x7b|1\\rangle, 2n+1\x7d = \\frac\x7b1\x7d\x7b2\x7d-\\frac\x7b1\x7d\x7b2\x7d\\text\x7bcos\x7d\\left(n\\pi+2nd\\theta+\\frac\x7b\\pi\x7d\x7b2\x7d+d\\theta\\right) $$ \n",
      "$$ P_\x7b|1\\rangle, 2n+1\x7d = \\frac\x7b1\x7d\x7b2\x7d+\\frac\x7b(-1)^n\x7d\x7b2\x7d\\text\x7bsin\x7d\\left(2nd\\theta+d\\theta\\right) $$ \n",
      "for small $d\\theta$ this amplifies the error by $n$,\n",
      "$$ P_\x7b|1\\rangle, 2n+1\x7d \\approx \\frac\x7b1\x7d\x7b2\x7d+\\frac\x7b(-1)^n d\\theta\x7d\x7b2\x7d(2n+1) $$ \n"]⟩,
   ⟨CellKind.markdown,
     ["<a id=\x27sect2\x27></a>"]⟩,
   ⟨CellKind.markdown,
     ["# Phase Error\n",
      "\n",
      "A phase error means that the angle between the X90p and Y90p is not perfectly $\\pi/2$. We assume the amplitude is correct so,\n",
      "$$X90p = e^\x7b-i \\frac\x7b\\pi\x7d\x7b4\x7d\\sigma_X\x7d$$\n",
      "$$Y90p = e^\x7b-i \\frac\x7b\\pi\x7d\x7b4\x7d\\left[\\text\x7bcos\x7d(d\\phi)\\sigma_Y+\\text\x7bsin\x7d(d\\phi)\\sigma_X\\right]\x7d$$\n",
      "The angle error can be amplified by the sequence\n",
      "$$X90p-[\\\x7bY90p\\\x7d^2 \\\x7bX90p\\\x7d^2]^n - Y90p$$"]⟩,
   ⟨CellKind.code, []⟩]

/-- The source lines of the single import cell of the notebook. -/
def importCellSource : List String :=
  ["# Import general libraries (needed for functions)\n",
   "import numpy as np\n",
   "import time\n",
   "\n",
   "# Import Qiskit classes\n",
   "import qiskit \n",
   "from qiskit import QuantumRegister, QuantumCircuit, ClassicalRegister, Aer\n",
   "from qiskit.providers.aer import noise\n",
   "from qiskit.tools.visualization import plot_histogram\n",
   "\n",
   "# Import measurement calibration functions\n",
   "from qiskit.ignis.mitigation.measurement import (complete_meas_cal,\n",
   "                                                       CompleteMeasFitter, MeasurementFilter)"]

/-- The source of the final, empty code cell of the notebook. -/
def emptyCellSource : List String := []

/-- Whitespace characters. -/
def isBlankChar (c : Char) : Bool := c = ' ' || c = '\t' || c = '\n' || c = '\r'

/-- Trim leading and trailing whitespace from a list of characters. -/
def trimChars (l : List Char) : List Char :=
  ((l.dropWhile isBlankChar).reverse.dropWhile isBlankChar).reverse

/-- Fuel-driven splitting of a character list on a nonempty separator. -/
def splitOnAux : Nat → List Char → List Char → List Char → List (List Char)
  | 0, l, _, cur => [cur.reverse ++ l]
  | _ + 1, [], _, cur => [cur.reverse]
  | f + 1, c :: rest, sep, cur =>
      if sep.isPrefixOf (c :: rest) then
        cur.reverse :: splitOnAux f (List.drop (sep.length - 1) rest) sep []
      else
        splitOnAux f rest sep (c :: cur)

/-- Split a character list on a nonempty separator. -/
def splitOnChars (l sep : List Char) : List (List Char) :=
  splitOnAux (l.length + 1) l sep []

/-- Net number of parentheses a physical line leaves open. -/
def parenDelta (s : String) : Int :=
  s.data.foldl (fun d c => if c = '(' then d + 1 else if c = ')' then d - 1 else d) 0

/-- Join physical source lines into logical Python lines, merging lines that
sit inside an unclosed parenthesis, as the Python lexer does. -/
def joinLogical (lines : List String) : List String :=
  let step := fun (st : List String × String × Int) (l : String) =>
    let done := st.1
    let cur := st.2.1
    let depth := st.2.2
    let cur2 := cur ++ l
    let depth2 := depth + parenDelta l
    if depth2 ≤ 0 then (done ++ [cur2], "", (0 : Int)) else (done, cur2, depth2)
  let fin := lines.foldl step ([], "", 0)
  if fin.2.1.data.isEmpty then fin.1 else fin.1 ++ [fin.2.1]

/-- A logical line that is (only) a Python comment. -/
def isCommentLine (s : String) : Bool :=
  ("#".data).isPrefixOf (trimChars s.data)

/-- A blank logical line. -/
def isBlankLine (s : String) : Bool := (trimChars s.data).isEmpty

/-- A logical line that is a Python import statement. -/
def isImportStmt (s : String) : Bool :=
  ("import ".data).isPrefixOf (trimChars s.data) ||
    (("from ".data).isPrefixOf (trimChars s.data) &&
      decide (2 ≤ (splitOnChars (trimChars s.data) (" import ".data)).length))

/-- A Python import statement: `import M` / `import M as A` /
`from M import (a, b, c)`. -/
inductive PyImport
  | importAs (module : String) (asName : Option String)
  | fromImport (module : String) (names : List String)
deriving DecidableEq

/-- Parse one logical line as an import statement, if it is one. -/
def parseImport (s : String) : Option PyImport :=
  let t := trimChars s.data
  if ("from ".data).isPrefixOf t then
    match splitOnChars t (" import ".data) with
    | [head, rest] =>
        let module : String := ⟨trimChars (head.drop 5)⟩
        let rest2 := (rest.filter (fun c => !(c == '(') && !(c == ')'))).map
          (fun c => if c = '\n' then ' ' else c)
        let names := ((splitOnChars rest2 [',']).map trimChars).filter
          (fun l => !l.isEmpty)
        some (PyImport.fromImport module (names.map (fun l => (⟨l⟩ : String))))
    | _ => none
  else if ("import ".data).isPrefixOf t then
    match splitOnChars (trimChars (t.drop 7)) (" as ".data) with
    | [m] => some (PyImport.importAs ⟨trimChars m⟩ none)
    | [m, a] => some (PyImport.importAs ⟨trimChars m⟩ (some (⟨trimChars a⟩ : String)))
    | _ => none
  else none

/-- All import statements of a code cell, in order. -/
def parseImports (lines : List String) : List PyImport :=
  (joinLogical lines).filterMap parseImport

/-- The names an import statement binds in the interpreter. -/
def boundNames : PyImport → List String
  | PyImport.importAs m none => [m]
  | PyImport.importAs _ (some a) => [a]
  | PyImport.fromImport _ ns => ns

/-- The module an import statement resolves. -/
def moduleOf : PyImport → String
  | PyImport.importAs m _ => m
  | PyImport.fromImport m _ => m

/-- The logical lines of all code cells of the notebook, in order. -/
def codeLogicalLines : List String :=
  (notebookCells.filter (fun c => c.kind == CellKind.code)).flatMap
    (fun c => joinLogical c.source)

/-- The import statements executed by the notebook: those of its code
cells, in order (its code cells contain nothing else that executes; see
`notebook_cells_shape`). -/
def notebookImports : List PyImport :=
  (notebookCells.filter (fun c => c.kind == CellKind.code)).flatMap
    (fun c => parseImports c.source)

/-- The observable state of the interpreter running the notebook: the bound
top-level names, and the parts an executed cell could otherwise touch. -/
structure InterpState where
  bound : List String
  files : List (String × String)
  output : List String
  userData : List (String × String)
deriving DecidableEq

/-- Executing one import statement: it binds the imported names and calls
nothing (the second component is the log of calls to imported symbols). -/
def execImport (st : InterpState) (i : PyImport) : InterpState × List String :=
  ({ st with bound := st.bound ++ boundNames i }, [])

/-- Run the notebook code: execute its import statements in order,
accumulating the call log. -/
def runNotebookCode (st : InterpState) : InterpState × List String :=
  notebookImports.foldl
    (fun acc i => ((execImport acc.1 i).1, acc.2 ++ (execImport acc.1 i).2)) (st, [])

/-- Executing one import statement under a module resolver: it fails
exactly when its module does not resolve. -/
def execImportE (resolves : String → Bool) (st : InterpState) (i : PyImport) :
    Except String InterpState :=
  if resolves (moduleOf i) then
    Except.ok { st with bound := st.bound ++ boundNames i }
  else
    Except.error (moduleOf i)

/-- Run the notebook code under a module resolver. -/
def runNotebookCodeE (resolves : String → Bool) (st : InterpState) :
    Except String InterpState :=
  notebookImports.foldlM (fun acc i => execImportE resolves acc i) st

/-- `pat` (nonempty) occurs as a substring of `s`. -/
def containsSubstr (s pat : String) : Bool :=
  decide (2 ≤ (splitOnChars s.data pat.data).length)

/-- The import list the specification describes for the import cell. -/
def specImportList : List PyImport :=
  [PyImport.importAs "numpy" (some "np"),
   PyImport.importAs "time" none,
   PyImport.importAs "qiskit" none,
   PyImport.fromImport "qiskit"
     ["QuantumRegister", "QuantumCircuit", "ClassicalRegister", "Aer"],
   PyImport.fromImport "qiskit.providers.aer" ["noise"],
   PyImport.fromImport "qiskit.tools.visualization" ["plot_histogram"],
   PyImport.fromImport "qiskit.ignis.mitigation.measurement"
     ["complete_meas_cal", "CompleteMeasFitter", "MeasurementFilter"]]

theorem PX_isUnit : IsUnit PX := by
  rw [Matrix.isUnit_iff_isUnit_det]
  simp [PX, Matrix.det_fin_two]
  norm_num

theorem QY_isUnit : IsUnit QY := by
  rw [Matrix.isUnit_iff_isUnit_det]
  have h : QY.det = -(2 * Complex.I) := by
    simp [QY, Matrix.det_fin_two]
    ring
  rw [h, isUnit_iff_ne_zero]
  intro h0
  have h1 := congrArg Complex.im h0
  simp at h1

/-- The diagonal matrix with entries `a`, `b`, written out. -/
theorem diagonal_pair (a b : ℂ) : Matrix.diagonal ![a, b] = !![a, 0; 0, b] := by
  ext i j
  fin_cases i <;> fin_cases j <;> simp [Matrix.diagonal_apply]

theorem PX_inv : PX⁻¹ = ((2 : ℂ)⁻¹) • PX := by
  apply Matrix.inv_eq_right_inv
  ext i j
  fin_cases i <;> fin_cases j <;>
    simp [PX, Matrix.mul_apply, Fin.sum_univ_two, Matrix.one_apply] <;> ring

theorem QY_inv : QY⁻¹ = !![(2 : ℂ)⁻¹, -(Complex.I) / 2; (2 : ℂ)⁻¹, Complex.I / 2] := by
  apply Matrix.inv_eq_right_inv
  ext i j
  fin_cases i <;> fin_cases j <;>
    simp [QY, Matrix.mul_apply, Fin.sum_univ_two, Matrix.one_apply]
  all_goals first
    | ring1
    | (simp [Complex.I_sq]; try ring1)
    | (ring_nf; simp [Complex.I_sq]; try ring_nf)
    | (field_simp; ring_nf; simp [Complex.I_sq]; try ring_nf)

theorem smul_σX_eq_conj (c : ℂ) :
    c • σX = PX * Matrix.diagonal ![c, -c] * PX⁻¹ := by
  rw [PX_inv, diagonal_pair]
  ext i j
  fin_cases i <;> fin_cases j <;>
    simp [PX, σX, Matrix.mul_apply, Fin.sum_univ_two]
  all_goals first
    | ring1
    | (simp [Complex.I_sq]; try ring1)
    | (ring_nf; simp [Complex.I_sq]; try ring_nf)
    | (field_simp; ring_nf; simp [Complex.I_sq]; try ring_nf)

theorem smul_σY_eq_conj (c : ℂ) :
    c • σY = QY * Matrix.diagonal ![c, -c] * QY⁻¹ := by
  rw [QY_inv, diagonal_pair]
  ext i j
  fin_cases i <;> fin_cases j <;>
    simp [QY, σY, Matrix.mul_apply, Fin.sum_univ_two]
  all_goals first
    | ring1
    | (simp [Complex.I_sq]; try ring1)
    | (ring_nf; simp [Complex.I_sq]; try ring_nf)
    | (field_simp; ring_nf; simp [Complex.I_sq]; try ring_nf)

/-- Pointwise value of the exponential on a pair. -/
theorem exp_pair (c : ℂ) :
    NormedSpace.exp ℂ ![c, -c] = ![Complex.exp c, Complex.exp (-c)] := by
  funext i
  fin_cases i <;> simp [Pi.coe_exp, ← Complex.exp_eq_exp_ℂ]

theorem exp_smul_σX (c : ℂ) :
    NormedSpace.exp ℂ (c • σX) =
      PX * Matrix.diagonal ![Complex.exp c, Complex.exp (-c)] * PX⁻¹ := by
  rw [smul_σX_eq_conj, Matrix.exp_conj ℂ PX _ PX_isUnit, Matrix.exp_diagonal, exp_pair]

theorem exp_smul_σY (c : ℂ) :
    NormedSpace.exp ℂ (c • σY) =
      QY * Matrix.diagonal ![Complex.exp c, Complex.exp (-c)] * QY⁻¹ := by
  rw [smul_σY_eq_conj, Matrix.exp_conj ℂ QY _ QY_isUnit, Matrix.exp_diagonal, exp_pair]

theorem exp_neg_I_real (θ : ℝ) :
    Complex.exp (-(Complex.I * (θ : ℂ))) = (cos θ : ℂ) - Complex.I * (sin θ : ℂ) := by
  have h : -(Complex.I * (θ : ℂ)) = ((-θ : ℝ) : ℂ) * Complex.I := by push_cast; ring
  rw [h, Complex.exp_mul_I]
  push_cast
  simp [Complex.ofReal_cos, Complex.ofReal_sin, Real.cos_neg, Real.sin_neg]
  ring

theorem exp_I_real (θ : ℝ) :
    Complex.exp (Complex.I * (θ : ℂ)) = (cos θ : ℂ) + Complex.I * (sin θ : ℂ) := by
  have h : Complex.I * (θ : ℂ) = ((θ : ℝ) : ℂ) * Complex.I := by ring
  rw [h, Complex.exp_mul_I]
  push_cast
  ring

/-- Euler expansion of the exponential of σ_X:
`e^{-iθσ_X} = cos θ · I − i sin θ · σ_X`. -/
theorem expEulerX (θ : ℝ) :
    NormedSpace.exp ℂ ((-(Complex.I * (θ : ℂ))) • σX) = rotX θ := by
  rw [exp_smul_σX, PX_inv, exp_neg_I_real]
  have h2 : Complex.exp (-(-(Complex.I * (θ : ℂ)))) = (cos θ : ℂ) + Complex.I * (sin θ : ℂ) := by
    rw [neg_neg, exp_I_real]
  rw [h2, diagonal_pair]
  ext i j
  fin_cases i <;> fin_cases j <;>
    simp [PX, rotX, Matrix.mul_apply, Fin.sum_univ_two]
  all_goals first
    | ring1
    | (simp [Complex.I_sq]; try ring1)
    | (ring_nf; simp [Complex.I_sq]; try ring_nf)
    | (field_simp; ring_nf; simp [Complex.I_sq]; try ring_nf)

/-- Euler expansion of the exponential of σ_Y:
`e^{-iθσ_Y} = cos θ · I − i sin θ · σ_Y`. -/
theorem expEulerY (θ : ℝ) :
    NormedSpace.exp ℂ ((-(Complex.I * (θ : ℂ))) • σY) = rotY θ := by
  rw [exp_smul_σY, QY_inv, exp_neg_I_real]
  have h2 : Complex.exp (-(-(Complex.I * (θ : ℂ)))) = (cos θ : ℂ) + Complex.I * (sin θ : ℂ) := by
    rw [neg_neg, exp_I_real]
  rw [h2, diagonal_pair]
  ext i j
  fin_cases i <;> fin_cases j <;>
    simp [QY, rotY, Matrix.mul_apply, Fin.sum_univ_two]
  all_goals first
    | ring1
    | (simp [Complex.I_sq]; try ring1)
    | (ring_nf; simp [Complex.I_sq]; try ring_nf)
    | (field_simp; ring_nf; simp [Complex.I_sq]; try ring_nf)

theorem rotX_mul (a b : ℝ) : rotX a * rotX b = rotX (a + b) := by
  ext i j
  fin_cases i <;> fin_cases j <;>
    simp [rotX, Matrix.mul_apply, Fin.sum_univ_two, Real.cos_add, Real.sin_add]
  all_goals first
    | ring1
    | (simp [Complex.I_sq]; try ring1)
    | (ring_nf; simp [Complex.I_sq]; try ring_nf)
    | (linear_combination (Complex.I_sq) * (Complex.ofReal (sin a) * Complex.ofReal (sin b)))

theorem rotX_zero : rotX 0 = 1 := by
  ext i j
  fin_cases i <;> fin_cases j <;> simp [rotX, Matrix.one_apply]

theorem rotX_pow (k : ℕ) (a : ℝ) : rotX a ^ k = rotX (k * a) := by
  induction k with
  | zero => simp [rotX_zero]
  | succ m ih =>
      rw [pow_succ, ih, rotX_mul]
      congr 1
      push_cast
      ring

theorem rotY_mul (a b : ℝ) : rotY a * rotY b = rotY (a + b) := by
  ext i j
  fin_cases i <;> fin_cases j <;>
    simp [rotY, Matrix.mul_apply, Fin.sum_univ_two, Real.cos_add, Real.sin_add]
  all_goals first
    | ring1
    | (simp [Complex.I_sq]; try ring1)
    | (ring_nf; simp [Complex.I_sq]; try ring_nf)

theorem rotY_zero : rotY 0 = 1 := by
  ext i j
  fin_cases i <;> fin_cases j <;> simp [rotY, Matrix.one_apply]

theorem rotY_pow (k : ℕ) (a : ℝ) : rotY a ^ k = rotY (k * a) := by
  induction k with
  | zero => simp [rotY_zero]
  | succ m ih =>
      rw [pow_succ, ih, rotY_mul]
      congr 1
      push_cast
      ring

theorem Uamp_eq_rotX (dθ : ℝ) : Uamp dθ = rotX (π / 4 + dθ / 2) := by
  rw [Uamp, expEulerX]
  congr 1
  ring

/-- `cos (z + nπ) = (-1)^n cos z`. -/
theorem cos_add_nat_mul_pi (z : ℝ) (n : ℕ) :
    cos (z + n * π) = (-1 : ℝ) ^ n * cos z := by
  induction n with
  | zero => simp
  | succ m ih =>
      have h : z + ((m : ℝ) + 1) * π = (z + m * π) + π := by ring
      push_cast
      rw [h, Real.cos_add_pi, ih, pow_succ]
      ring

/-- The trigonometric identity behind lines 103-105 of the notebook:
`sin²((2n+1)(π/4 + dθ/2)) = 1/2 + ((-1)^n/2)·sin((2n+1)dθ)`. -/
theorem sin_sq_amplification (n : ℕ) (dθ : ℝ) :
    sin ((2 * n + 1) * (π / 4 + dθ / 2)) ^ 2
      = 1 / 2 + ((-1 : ℝ) ^ n / 2) * sin ((2 * n + 1) * dθ) := by
  rw [Real.sin_sq, Real.cos_sq]
  have h : 2 * ((2 * (n : ℝ) + 1) * (π / 4 + dθ / 2))
      = ((2 * (n : ℝ) + 1) * dθ + π / 2) + n * π := by ring
  rw [h, cos_add_nat_mul_pi, Real.cos_add_pi_div_two]
  ring

/-- C1: applying the miscalibrated rotation `U = e^{-i(π/2+dθ)σ_X/2}` exactly
`2n+1` times to the ground state gives excited-state population
`1/2 + ((-1)^n/2)·sin((2n+1)dθ)`. -/
theorem amplitude_error_population (n : ℕ) (dθ : ℝ) :
    P1amp n dθ = 1 / 2 + ((-1 : ℝ) ^ n / 2) * sin ((2 * n + 1) * dθ) := by
  rw [P1amp, Uamp_eq_rotX, rotX_pow]
  have hangle : ((2 * n + 1 : ℕ) : ℝ) * (π / 4 + dθ / 2)
      = (2 * (n : ℝ) + 1) * (π / 4 + dθ / 2) := by push_cast; ring
  rw [hangle]
  have hv : (rotX ((2 * (n : ℝ) + 1) * (π / 4 + dθ / 2))).mulVec ket0 1
      = -(Complex.I * ((sin ((2 * (n : ℝ) + 1) * (π / 4 + dθ / 2)) : ℝ) : ℂ)) := by
    simp [rotX, Matrix.mulVec, Matrix.dotProduct, Fin.sum_univ_two, ket0]
  rw [hv, Complex.normSq_neg, Complex.normSq_mul, Complex.normSq_I,
    Complex.normSq_ofReal, one_mul, ← sq]
  have := sin_sq_amplification n dθ
  calc sin ((2 * (n : ℝ) + 1) * (π / 4 + dθ / 2)) ^ 2
      = sin (((2 * n : ℕ) + 1) * (π / 4 + dθ / 2)) ^ 2 := by push_cast; ring_nf
    _ = 1 / 2 + ((-1 : ℝ) ^ n / 2) * sin ((2 * n + 1) * dθ) := by
        push_cast
        push_cast at this
        convert this using 4 <;> ring

/-- C2: the formula `1/2 + ((-1)^n/2)·sin((2n+1)dθ)` has value `1/2` and
derivative `(-1)^n(2n+1)/2` at `dθ = 0`, so its first-order expansion there
is `1/2 + ((-1)^n·dθ/2)(2n+1)`. -/
theorem amplitude_error_linearization (n : ℕ) :
    P1formula n 0 = 1 / 2 ∧
      HasDerivAt (P1formula n) ((-1 : ℝ) ^ n * (2 * n + 1) / 2) 0 := by
  constructor
  · simp [P1formula]
  · have h1 : HasDerivAt (fun x : ℝ => (2 * (n : ℝ) + 1) * x) (2 * (n : ℝ) + 1) 0 := by
      simpa using (hasDerivAt_id (0 : ℝ)).const_mul (2 * (n : ℝ) + 1)
    have h2 : HasDerivAt (fun x : ℝ => sin ((2 * (n : ℝ) + 1) * x))
        (cos ((2 * (n : ℝ) + 1) * 0) * (2 * (n : ℝ) + 1)) 0 := h1.sin
    have h3 := (h2.const_mul ((-1 : ℝ) ^ n / 2)).const_add (1 / 2)
    have hval : (-1 : ℝ) ^ n / 2 * (cos ((2 * (n : ℝ) + 1) * 0) * (2 * (n : ℝ) + 1))
        = (-1 : ℝ) ^ n * (2 * (n : ℝ) + 1) / 2 := by
      rw [mul_zero, Real.cos_zero]
      ring
    rw [hval] at h3
    exact h3

theorem X90pEuler_eq_rotX (dθ : ℝ) : X90pEuler dθ = rotX (π / 4 + dθ / 2) := by
  ext i j
  fin_cases i <;> fin_cases j <;>
    simp [X90pEuler, rotX, σX, Matrix.one_apply]

/-- C3 counterexample: with the `i`-less matrix displayed in the notebook,
the displayed power identity already fails at `n = 1`, `dθ = 0`. -/
theorem X90p_power_identity_counterexample :
    X90pDisp 0 ^ (2 * 1 + 1) ≠ X90pDispPowClaim 1 0 := by
  intro h
  have ha : X90pDisp 0
      = !![((Real.sqrt 2 / 2 : ℝ) : ℂ), -((Real.sqrt 2 / 2 : ℝ) : ℂ);
           -((Real.sqrt 2 / 2 : ℝ) : ℂ), ((Real.sqrt 2 / 2 : ℝ) : ℂ)] := by
    ext i j
    fin_cases i <;> fin_cases j <;>
      simp [X90pDisp, σX, Matrix.one_apply, Real.cos_pi_div_four, Real.sin_pi_div_four]
  have hcube : (X90pDisp 0 ^ (2 * 1 + 1)) 0 0 = ((4 * (Real.sqrt 2 / 2) ^ 3 : ℝ) : ℂ) := by
    rw [show (2 * 1 + 1 : ℕ) = 3 from rfl, ha, pow_succ, pow_two, Matrix.mul_fin_two,
      Matrix.mul_fin_two]
    push_cast
    simp
    ring
  have hangle1 : ((1 : ℕ) : ℝ) * (π / 2) + ((1 : ℕ) : ℝ) * (0 : ℝ) + π / 4 + (0 : ℝ) / 2
      = π / 4 + π / 2 := by
    push_cast
    ring
  have hcosv : cos (π / 4 + π / 2) = -(Real.sqrt 2 / 2) := by
    rw [Real.cos_add_pi_div_two, Real.sin_pi_div_four]
  have hclaim : X90pDispPowClaim 1 0 0 0 = ((-(Real.sqrt 2 / 2) : ℝ) : ℂ) := by
    simp only [X90pDispPowClaim]
    rw [hangle1, hcosv]
    simp [σX, Matrix.one_apply]
  have h00 := Matrix.ext_iff.mpr h 0 0
  rw [hcube, hclaim] at h00
  have hre := Complex.ofReal_inj.mp h00
  have hs : Real.sqrt 2 ^ 2 = 2 := Real.sq_sqrt (by norm_num)
  have h3 : Real.sqrt 2 ^ 3 = 2 * Real.sqrt 2 := by
    rw [pow_succ, hs]
  nlinarith [hre, hs, h3, Real.sqrt_nonneg 2]

/-- C3 amended: with the factor `i` restored on the `σ_X` terms (the genuine
Euler expansion of `e^{-i(π/4+dθ/2)σ_X}`), the displayed power identity
holds: `X90p^{2n+1} = cos(nπ/2+ndθ+π/4+dθ/2)·I − i·sin(nπ/2+ndθ+π/4+dθ/2)·σ_X`. -/
theorem X90p_power_identity_with_i (n : ℕ) (dθ : ℝ) :
    X90pEuler dθ ^ (2 * n + 1)
      = ((cos ((n : ℝ) * (π / 2) + n * dθ + π / 4 + dθ / 2) : ℝ) : ℂ) • 1
        - (Complex.I * ((sin ((n : ℝ) * (π / 2) + n * dθ + π / 4 + dθ / 2) : ℝ) : ℂ)) • σX := by
  rw [X90pEuler_eq_rotX, rotX_pow]
  have hangle : ((2 * n + 1 : ℕ) : ℝ) * (π / 4 + dθ / 2)
      = (n : ℝ) * (π / 2) + n * dθ + π / 4 + dθ / 2 := by push_cast; ring
  rw [hangle]
  ext i j
  fin_cases i <;> fin_cases j <;>
    simp [rotX, σX, Matrix.one_apply]

/-- C4: at `dφ = 0` the gate `Y90p` reduces to the ideal `e^{-i(π/4)σ_Y}`,
and the phase-error sequence applied to the ground state has excited-state
population exactly `1/2` for every `n`. -/
theorem phase_error_sequence :
    Y90p 0 = NormedSpace.exp ℂ ((-(Complex.I * ((π / 4 : ℝ) : ℂ))) • σY)
      ∧ ∀ n : ℕ, P1phase n = 1 / 2 := by
  have harg : ((cos (0 : ℝ) : ℝ) : ℂ) • σY + ((sin (0 : ℝ) : ℝ) : ℂ) • σX = σY := by
    simp
  have hY0 : Y90p 0 = rotY (π / 4) := by
    rw [Y90p, harg, expEulerY]
  have hX : X90p = rotX (π / 4) := by
    rw [X90p, expEulerX]
  refine ⟨by rw [Y90p, harg], fun n => ?_⟩
  have hX2 : X90p ^ 2 = rotX (π / 2) := by
    rw [hX, rotX_pow]
    congr 1
    push_cast
    ring
  have hY2 : Y90p 0 ^ 2 = rotY (π / 2) := by
    rw [hY0, rotY_pow]
    congr 1
    push_cast
    ring
  have hB : rotX (π / 2) * rotY (π / 2) = Matrix.diagonal ![-Complex.I, Complex.I] := by
    rw [diagonal_pair]
    ext i j
    fin_cases i <;> fin_cases j <;>
      simp [rotX, rotY, Real.cos_pi_div_two, Real.sin_pi_div_two, Matrix.mul_apply,
        Fin.sum_univ_two]
  have hvec : (![-Complex.I, Complex.I]) ^ n = ![(-Complex.I) ^ n, Complex.I ^ n] := by
    funext i
    fin_cases i <;> simp [Pi.pow_apply]
  have hBn : (X90p ^ 2 * Y90p 0 ^ 2) ^ n
      = !![(-Complex.I) ^ n, 0; 0, Complex.I ^ n] := by
    rw [hX2, hY2, hB, Matrix.diagonal_pow, hvec, diagonal_pair]
  have hψ : (phaseSeqOp n).mulVec ket0 1
      = ((cos (π / 4) : ℝ) : ℂ) * ((sin (π / 4) : ℝ) : ℂ)
        * ((-Complex.I) ^ n - Complex.I * Complex.I ^ n) := by
    rw [phaseSeqOp, hBn, hY0, hX]
    simp [Matrix.mulVec, Matrix.mul_apply, Matrix.dotProduct, Fin.sum_univ_two, ket0,
      rotX, rotY]
    ring
  rw [P1phase, hψ, Real.cos_pi_div_four, Real.sin_pi_div_four, Complex.normSq_mul,
    Complex.normSq_mul, Complex.normSq_ofReal]
  have hw : Complex.normSq ((-Complex.I) ^ n - Complex.I * Complex.I ^ n) = 2 := by
    have h1 : (-Complex.I) ^ n - Complex.I * Complex.I ^ n
        = Complex.I ^ n * ((((-1 : ℝ) ^ n : ℝ) : ℂ) - Complex.I) := by
      rw [neg_pow]
      push_cast
      ring
    rw [h1, Complex.normSq_mul]
    have h2 : Complex.normSq (Complex.I ^ n) = 1 := by
      rw [map_pow, Complex.normSq_I, one_pow]
    have h3 : Complex.normSq ((((-1 : ℝ) ^ n : ℝ) : ℂ) - Complex.I) = 2 := by
      rw [Complex.normSq_apply]
      simp
      rcases Nat.even_or_odd n with he | ho
      · rw [he.neg_one_pow]
        norm_num
      · rw [ho.neg_one_pow]
        norm_num
    rw [h2, h3, one_mul]
  rw [hw]
  have hs : Real.sqrt 2 * Real.sqrt 2 = 2 := Real.mul_self_sqrt (by norm_num)
  linear_combination ((Real.sqrt 2 * Real.sqrt 2 + 2) / 8) * hs

/-- C9: conjugation by `X90p = e^{-i(π/4)σ_X}` sends the density operator
with Bloch vector `(x,y,z)` to the one with Bloch vector rotated by angle
`π/2` about the x axis, so in the form `U(θ,n̂) = e^{-iθ n̂·σ}` the gate with
`θ = π/4` performs a `π/2` rotation of the Bloch sphere. -/
theorem X90p_bloch_rotation (x y z : ℝ) :
    X90p * blochRho x y z * X90pᴴ
      = blochRho x (cos (π / 2) * y - sin (π / 2) * z)
          (sin (π / 2) * y + cos (π / 2) * z) := by
  have hX90 : X90p = rotX (π / 4) := by rw [X90p, expEulerX]
  have hI2 : Complex.I ^ 2 = -1 := Complex.I_sq
  have hI3 : Complex.I ^ 3 = -Complex.I := by
    rw [pow_succ, hI2]
    ring
  have hs2c : ((Real.sqrt 2 : ℝ) : ℂ) ^ 2 = 2 := by
    rw [← Complex.ofReal_pow, Real.sq_sqrt (show (0 : ℝ) ≤ 2 by norm_num)]
    norm_num
  have hrho : ∀ u v w : ℝ, blochRho u v w
      = !![((1 : ℂ) + (w : ℂ)) / 2, ((u : ℂ) - (v : ℂ) * Complex.I) / 2;
           ((u : ℂ) + (v : ℂ) * Complex.I) / 2, ((1 : ℂ) - (w : ℂ)) / 2] := by
    intro u v w
    ext i j
    fin_cases i <;> fin_cases j <;>
      simp [blochRho, σX, σY, σZ, Matrix.one_apply]
    all_goals ring1
  have hrot : rotX (π / 4)
      = !![((Real.sqrt 2 / 2 : ℝ) : ℂ), -(Complex.I * ((Real.sqrt 2 / 2 : ℝ) : ℂ));
           -(Complex.I * ((Real.sqrt 2 / 2 : ℝ) : ℂ)), ((Real.sqrt 2 / 2 : ℝ) : ℂ)] := by
    simp only [rotX, Real.cos_pi_div_four, Real.sin_pi_div_four]
  have hconj : (!![((Real.sqrt 2 / 2 : ℝ) : ℂ), -(Complex.I * ((Real.sqrt 2 / 2 : ℝ) : ℂ));
           -(Complex.I * ((Real.sqrt 2 / 2 : ℝ) : ℂ)), ((Real.sqrt 2 / 2 : ℝ) : ℂ)])ᴴ
      = !![((Real.sqrt 2 / 2 : ℝ) : ℂ), Complex.I * ((Real.sqrt 2 / 2 : ℝ) : ℂ);
           Complex.I * ((Real.sqrt 2 / 2 : ℝ) : ℂ), ((Real.sqrt 2 / 2 : ℝ) : ℂ)] := by
    ext i j
    fin_cases i <;> fin_cases j <;>
      simp [Matrix.conjTranspose_apply, star_neg, star_mul', Complex.star_def,
        Complex.conj_I, Complex.conj_ofReal]
  rw [hX90, hrho, hrho, hrot, hconj, Matrix.mul_fin_two, Matrix.mul_fin_two]
  ext i j
  fin_cases i <;> fin_cases j <;>
    simp [Real.cos_pi_div_two, Real.sin_pi_div_two]
  all_goals push_cast
  all_goals first
    | ring1
    | (ring_nf; simp [hI2, hI3, hs2c]; try ring1)
    | (ring_nf; simp [hI2, hI3, hs2c]; try ring_nf)

/-- C6: the single import cell imports exactly numpy (as np), time, qiskit,
QuantumRegister, QuantumCircuit, ClassicalRegister, Aer, the noise module,
plot_histogram, and the three measurement-calibration routines
complete_meas_cal, CompleteMeasFitter and MeasurementFilter — nothing else. -/
theorem import_cell_imports_exactly :
    parseImports importCellSource = specImportList := by rfl

/-- C7: the notebook is a linear sequence of ten cells with exactly two code
cells — one whose logical lines are only import statements, comments and
blank lines, and one whose source is empty — and the other eight cells all
markdown. -/
theorem notebook_cells_shape :
    (notebookCells.filter (fun c => c.kind == CellKind.code)).map Cell.source
        = [importCellSource, emptyCellSource]
      ∧ (joinLogical importCellSource).all
          (fun s => isImportStmt s || isCommentLine s || isBlankLine s) = true
      ∧ notebookCells.length = 10
      ∧ (notebookCells.filter (fun c => c.kind == CellKind.markdown)).length = 8 :=
  ⟨rfl, rfl, rfl, rfl⟩

/-- C5: executing the notebook code performs no call to any imported symbol
(the call log is empty): its only effect is binding the imported names, and
the files, output and user data of the interpreter state are unchanged. -/
theorem notebook_code_frame (st : InterpState) :
    (runNotebookCode st).2 = []
      ∧ (runNotebookCode st).1.files = st.files
      ∧ (runNotebookCode st).1.output = st.output
      ∧ (runNotebookCode st).1.userData = st.userData
      ∧ (runNotebookCode st).1.bound = st.bound ++ specImportList.flatMap boundNames := by
  have h : notebookImports = specImportList := by rfl
  rw [runNotebookCode, h]
  simp [execImport, boundNames, specImportList]

/-- C8: the notebook code contains no failure-handling construct (no
try/except, no raise), and under the precondition that every imported
module resolves, executing it succeeds. -/
theorem notebook_error_free (resolves : String → Bool) (st : InterpState)
    (h : ∀ m ∈ notebookImports.map moduleOf, resolves m = true) :
    (codeLogicalLines.all (fun l => !(containsSubstr l "try")
        && !(containsSubstr l "except") && !(containsSubstr l "raise"))) = true
      ∧ ∃ st2, runNotebookCodeE resolves st = Except.ok st2 := by
  refine ⟨by rfl, ?_⟩
  have hmods : notebookImports.map moduleOf = ["numpy", "time", "qiskit", "qiskit",
      "qiskit.providers.aer", "qiskit.tools.visualization",
      "qiskit.ignis.mitigation.measurement"] := by rfl
  rw [hmods] at h
  simp only [List.mem_cons, List.not_mem_nil, or_false, forall_eq_or_imp, forall_eq] at h
  obtain ⟨h1, h2, h3, h4, h5, h6, h7⟩ := h
  have hni : notebookImports = specImportList := by rfl
  rw [runNotebookCodeE, hni]
  simp [specImportList, execImportE, moduleOf, h1, h2, h3, h4, h5, h6, h7]
  exact ⟨_, rfl⟩

/-- Witness for `notebook_error_free`: the always-true resolver on the empty
initial state. -/
theorem notebook_error_free_witness :
    (codeLogicalLines.all (fun l => !(containsSubstr l "try")
        && !(containsSubstr l "except") && !(containsSubstr l "raise"))) = true
      ∧ ∃ st2, runNotebookCodeE (fun _ => true) ⟨[], [], [], []⟩ = Except.ok st2 :=
  notebook_error_free (fun _ => true) ⟨[], [], [], []⟩ (fun m _ => rfl)

/-- C10: the notebook file is 162 raw lines — approximately the 159 the
spec counts — and it has no substantive executable logic: every logical
line of its code cells is an import statement, a comment or blank. -/
theorem notebook_line_budget :
    rawNotebookLines.length = 162
      ∧ Nat.dist rawNotebookLines.length 159 ≤ 3
      ∧ codeLogicalLines.all
          (fun s => isImportStmt s || isCommentLine s || isBlankLine s) = true := by
  refine ⟨rfl, ?_, rfl⟩
  rw [show rawNotebookLines.length = 162 from rfl]
  norm_num [Nat.dist]

end GateErrors
